import Mathlib

/-!
Verification of the supply-chain risk scoring and aggregation pipeline.

The Python source (`supply_chain_predictor`) is shallowly embedded here:
Python floats are modelled as exact rationals (`ℚ`), Python ints as `ℤ`,
and Python dict results as Lean structures carrying the fields the
properties below refer to (display-only fields such as `forecasted_metrics`,
`urgency`, `sub_category` and the per-domain boolean sub-flags are omitted).
`round(x, 2)` is modelled as rounding to the nearest multiple of 1/100;
Python breaks exact ties to even while `round` here breaks them upward, but
no property below depends on tie behaviour.  Python's stable `list.sort`
is modelled by `List.mergeSort`, which is stable.
-/

namespace SupplyChain

/-- `utils/helpers.py`: clamp a value between minimum and maximum bounds. -/
def clamp (value min_val max_val : ℚ) : ℚ :=
  max min_val (min value max_val)

/-- `utils/helpers.py`: safely divide two numbers, returning `default` if the
denominator is zero. -/
def safe_division (numerator denominator default : ℚ) : ℚ :=
  if denominator = 0 then default else numerator / denominator

/-- Python `round(x, 2)`: round to the nearest multiple of 1/100. -/
def round2 (x : ℚ) : ℚ :=
  (round (100 * x) : ℚ) / 100

/-- `config.py` `RISK_THRESHOLDS`: detection thresholds per category.
All scorer lookups use `.get(key, default)` where the defaults coincide
with the configured values, so the lookup always yields the value below. -/
def RISK_THRESHOLDS (key : String) : ℚ :=
  if key = "supplier_lead_time_multiplier" then 6/5
  else if key = "capacity_utilization_threshold" then 19/20
  else if key = "downtime_increase_threshold" then 1/5
  else if key = "safety_stock_threshold" then 1
  else if key = "demand_volatility_threshold" then 3/10
  else if key = "transit_time_multiplier" then 13/10
  else if key = "weather_severity_threshold" then 7
  else if key = "tariff_increase_threshold" then 1/10
  else if key = "port_congestion_threshold" then 30
  else 0

/-- `config.py` `RISK_PRIORITY_THRESHOLDS`: score boundaries for priority
classification. -/
def RISK_PRIORITY_THRESHOLDS (key : String) : ℚ :=
  if key = "CRITICAL" then 90
  else if key = "HIGH" then 70
  else if key = "MEDIUM" then 50
  else 0

/-- `utils/helpers.py` `classify_risk_priority`: classify risk priority based
on risk score (boundaries inclusive-low). -/
def classify_risk_priority (risk_score : ℚ) : String :=
  if RISK_PRIORITY_THRESHOLDS "CRITICAL" ≤ risk_score then "CRITICAL"
  else if RISK_PRIORITY_THRESHOLDS "HIGH" ≤ risk_score then "HIGH"
  else if RISK_PRIORITY_THRESHOLDS "MEDIUM" ≤ risk_score then "MEDIUM"
  else "LOW"

/-- Rank of a priority label in the total order LOW < MEDIUM < HIGH < CRITICAL,
used to state monotonicity of the classification. -/
def priorityRank (p : String) : ℕ :=
  if p = "CRITICAL" then 3
  else if p = "HIGH" then 2
  else if p = "MEDIUM" then 1
  else 0

/-- Result of one scorer invocation (`models/risk_scorer.py`), restricted to
the fields the verified properties mention. -/
structure ScoreResult where
  risk_detected : Bool
  risk_score : ℚ
  priority : String
  probability : ℚ
  impact_severity : ℚ
deriving DecidableEq

/-- The literal record every scorer returns when its detection gate fails. -/
def nonRiskResult : ScoreResult :=
  { risk_detected := false
    risk_score := 0
    priority := "LOW"
    probability := 0
    impact_severity := 0 }

/-- `RiskScorer.calculate_composite_score`: normalize inputs, weight
impact 40% / probability 30% / urgency 30%, divide by mitigation readiness,
clamp to 0-100. -/
def calculate_composite_score (impact_severity probability urgency : ℚ)
    (mitigation_readiness : ℚ) : ℚ :=
  let impact_severity := clamp impact_severity 0 100
  let probability := clamp probability 0 1
  let urgency := clamp urgency 0 100
  let mitigation_readiness := clamp mitigation_readiness (1/10) 1
  let raw_score := (impact_severity * (4/10)) + (probability * 100 * (3/10)) +
    (urgency * (3/10))
  let adjusted_score := raw_score / mitigation_readiness
  clamp adjusted_score 0 100

/-- `RiskScorer.calculate_supplier_risk_score`. -/
def calculate_supplier_risk_score (forecasted_lead_time historical_avg_lead_time
    confidence_interval_width : ℚ) (timeline_days : ℤ)
    (on_time_delivery_rate : ℚ) : ScoreResult :=
  let threshold_multiplier := RISK_THRESHOLDS "supplier_lead_time_multiplier"
  let increase_factor := safe_division forecasted_lead_time historical_avg_lead_time 1
  if threshold_multiplier < increase_factor then
    let base_probability := 1/2 + (1/2 * (1 - min (confidence_interval_width / forecasted_lead_time) 1))
    let probability := clamp (base_probability * (1 + (1 - on_time_delivery_rate))) 0 1
    let impact_severity := min ((increase_factor - 1) * 100 * 2) 100
    let urgency := max (100 - (timeline_days : ℚ)) 0
    let mitigation_readiness := max on_time_delivery_rate (1/10)
    let risk_score := calculate_composite_score impact_severity probability urgency mitigation_readiness
    { risk_detected := true
      risk_score := round2 risk_score
      priority := classify_risk_priority risk_score
      probability := round2 probability
      impact_severity := round2 impact_severity }
  else nonRiskResult

/-- `RiskScorer.calculate_production_risk_score`. -/
def calculate_production_risk_score (forecasted_utilization forecasted_downtime
    historical_downtime : ℚ) (timeline_days : ℤ) : ScoreResult :=
  let utilization_threshold := RISK_THRESHOLDS "capacity_utilization_threshold"
  let downtime_threshold := RISK_THRESHOLDS "downtime_increase_threshold"
  let bottleneck_risk := utilization_threshold < forecasted_utilization
  let downtime_increase := safe_division (forecasted_downtime - historical_downtime) historical_downtime 0
  let downtime_risk := downtime_threshold < downtime_increase
  if bottleneck_risk ∨ downtime_risk then
    let probability := clamp ((1/2) +
      (if bottleneck_risk then (1/4) * (forecasted_utilization - utilization_threshold) / (1 - utilization_threshold) else 0) +
      (if downtime_risk then (1/4) * min (downtime_increase / (1/2)) 1 else 0)) 0 1
    let impact_severity := clamp
      ((if bottleneck_risk then 50 * ((forecasted_utilization - utilization_threshold) / (1 - utilization_threshold)) else 0) +
       (if downtime_risk then 50 * min downtime_increase 1 else 0)) 0 100
    let urgency := max (100 - (timeline_days : ℚ)) 0
    let risk_score := calculate_composite_score impact_severity probability urgency (7/10)
    { risk_detected := true
      risk_score := round2 risk_score
      priority := classify_risk_priority risk_score
      probability := round2 probability
      impact_severity := round2 impact_severity }
  else nonRiskResult

/-- `RiskScorer.calculate_inventory_risk_score`. -/
def calculate_inventory_risk_score (forecasted_inventory safety_stock
    forecasted_demand_upper inventory_lower_bound : ℚ) (timeline_days : ℤ) :
    ScoreResult :=
  let shortage_risk := forecasted_inventory < safety_stock
  let high_demand_risk := inventory_lower_bound < forecasted_demand_upper
  if shortage_risk ∨ high_demand_risk then
    let probability := clamp ((3/10) +
      (if shortage_risk then (4/10) * min (safe_division (safety_stock - forecasted_inventory) safety_stock 0) 1 else 0) +
      (if high_demand_risk then (3/10) * min (safe_division (forecasted_demand_upper - inventory_lower_bound) inventory_lower_bound 0) 1 else 0)) 0 1
    let impact_severity := clamp
      ((if shortage_risk then 60 * min (safe_division (safety_stock - forecasted_inventory) safety_stock 0) 1 else 0) +
       (if high_demand_risk then 40 else 0)) 0 100
    let urgency := max (100 - (timeline_days : ℚ)) 0
    let risk_score := calculate_composite_score impact_severity probability urgency (6/10)
    { risk_detected := true
      risk_score := round2 risk_score
      priority := classify_risk_priority risk_score
      probability := round2 probability
      impact_severity := round2 impact_severity }
  else nonRiskResult

/-- `RiskScorer.calculate_demand_volatility_score`. -/
def calculate_demand_volatility_score (yhat yhat_upper yhat_lower : ℚ)
    (timeline_days : ℤ) : ScoreResult :=
  let threshold := RISK_THRESHOLDS "demand_volatility_threshold"
  let interval_width := yhat_upper - yhat_lower
  let volatility := safe_division interval_width yhat 0
  if threshold < volatility then
    let probability := min ((volatility - threshold) / threshold + 1/2) 1
    let impact_severity := min (volatility * 100) 100
    let urgency := max (100 - (timeline_days : ℚ)) 0
    let risk_score := calculate_composite_score impact_severity probability urgency (8/10)
    { risk_detected := true
      risk_score := round2 risk_score
      priority := classify_risk_priority risk_score
      probability := round2 probability
      impact_severity := round2 impact_severity }
  else nonRiskResult

/-- `RiskScorer.calculate_transportation_risk_score`. -/
def calculate_transportation_risk_score (forecasted_transit_time
    baseline_transit_time : ℚ) (timeline_days : ℤ) (on_time_rate : ℚ) :
    ScoreResult :=
  let threshold := RISK_THRESHOLDS "transit_time_multiplier"
  let increase_factor := safe_division forecasted_transit_time baseline_transit_time 1
  if threshold < increase_factor then
    let probability := clamp (1/2 + 1/2 * (1 - on_time_rate)) 0 1
    let delay_pct := (increase_factor - 1) * 100
    let impact_severity := min (delay_pct * 2) 100
    let urgency := max (100 - (timeline_days : ℚ)) 0
    let risk_score := calculate_composite_score impact_severity probability urgency on_time_rate
    { risk_detected := true
      risk_score := round2 risk_score
      priority := classify_risk_priority risk_score
      probability := round2 probability
      impact_severity := round2 impact_severity }
  else nonRiskResult

/-- Common tail of `RiskScorer.calculate_external_factor_risk_score` for a
detected factor: clamp probability and impact, compute urgency and the
composite score with fixed readiness 0.5. -/
def externalDetected (probability impact_severity : ℚ) (timeline_days : ℤ) :
    ScoreResult :=
  let probability := clamp probability 0 1
  let impact_severity := clamp impact_severity 0 100
  let urgency := max (100 - (timeline_days : ℚ)) 0
  let risk_score := calculate_composite_score impact_severity probability urgency (1/2)
  { risk_detected := true
    risk_score := round2 risk_score
    priority := classify_risk_priority risk_score
    probability := round2 probability
    impact_severity := round2 impact_severity }

/-- `RiskScorer.calculate_external_factor_risk_score`: dispatch on the factor
type; an unrecognized factor type leaves `risk_detected` false and falls
through to the non-detected return. -/
def calculate_external_factor_risk_score (factor_type : String)
    (forecasted_value historical_value : ℚ) (timeline_days : ℤ) : ScoreResult :=
  if factor_type = "weather_severity_index" then
    let threshold := RISK_THRESHOLDS "weather_severity_threshold"
    if threshold < forecasted_value then
      externalDetected (min ((forecasted_value - threshold) / 3) 1)
        (min ((forecasted_value / 10) * 100) 100) timeline_days
    else nonRiskResult
  else if factor_type = "tariff_rate" then
    let threshold := RISK_THRESHOLDS "tariff_increase_threshold"
    let increase := safe_division (forecasted_value - historical_value) historical_value 0
    if threshold < increase then
      externalDetected (min (increase / (3/10)) 1) (min (increase * 200) 100) timeline_days
    else nonRiskResult
  else if factor_type = "port_congestion_index" then
    let threshold := RISK_THRESHOLDS "port_congestion_threshold"
    if threshold < forecasted_value then
      externalDetected (min ((forecasted_value - threshold) / 20) 1)
        (min ((forecasted_value / 50) * 100) 100) timeline_days
    else nonRiskResult
  else if factor_type = "fuel_price_usd" then
    let increase := safe_division (forecasted_value - historical_value) historical_value 0
    if (3/20 : ℚ) < increase then
      externalDetected (min (increase / (3/10)) 1) (min (increase * 150) 100) timeline_days
    else nonRiskResult
  else if factor_type = "geopolitical_risk_index" then
    if (7 : ℚ) < forecasted_value then
      externalDetected (min (forecasted_value / 10) 1) (min (forecasted_value * 10) 100) timeline_days
    else nonRiskResult
  else nonRiskResult

/-- A materialized risk record (the Python risk dict), restricted to the keys
read by `aggregate_risks`, `generate_recommendations` and
`_generate_fallback_mitigations`. -/
structure RiskItem where
  risk_id : String
  category : String
  impact : String
  priority : String
  risk_score : ℚ
  timeline_days : ℤ
deriving DecidableEq

/-- Boolean comparison used for the descending sort in `aggregate_risks`. -/
def scoreDescLE (a b : RiskItem) : Bool :=
  decide (b.risk_score ≤ a.risk_score)

/-- `RiskAnalyzer.aggregate_risks`: filter to `risk_score ≥ threshold`, then
stable-sort descending by risk score (Python's stable `list.sort` with
`reverse=True`, modelled by the stable `List.mergeSort`). -/
def aggregate_risks (all_risks : List RiskItem) (risk_threshold : ℚ) :
    List RiskItem :=
  let filtered := all_risks.filter fun r => decide (risk_threshold ≤ r.risk_score)
  filtered.mergeSort scoreDescLE

/-- One entry of a recommendation bucket
(`ForecastService.generate_recommendations`). -/
structure Recommendation where
  action : String
  priority : String
  related_risks : List String
deriving DecidableEq

/-- The three recommendation buckets returned by
`ForecastService.generate_recommendations`. -/
structure Recommendations where
  immediate_actions : List Recommendation
  short_term_actions : List Recommendation
  long_term_actions : List Recommendation
deriving DecidableEq

/-- The record appended to `immediate_actions` for one risk. -/
def mkImmediateAction (r : RiskItem) : Recommendation :=
  { action := "Address " ++ r.category ++ ": " ++ r.impact
    priority := r.priority
    related_risks := [r.risk_id] }

/-- The record appended to `short_term_actions` for one risk. -/
def mkShortTermAction (r : RiskItem) : Recommendation :=
  { action := "Monitor and plan for " ++ r.category
    priority := r.priority
    related_risks := [r.risk_id] }

/-- The record appended to `long_term_actions` for one risk. -/
def mkLongTermAction (r : RiskItem) : Recommendation :=
  { action := "Prepare contingency for " ++ r.category
    priority := r.priority
    related_risks := [r.risk_id] }

/-- Gate for the immediate bucket: priority CRITICAL or timeline ≤ 7 days. -/
def immediateGate (r : RiskItem) : Prop :=
  r.priority = "CRITICAL" ∨ r.timeline_days ≤ 7

/-- Gate for the short-term bucket (tested only when the immediate gate
failed): priority HIGH or timeline ≤ 21 days. -/
def shortTermGate (r : RiskItem) : Prop :=
  r.priority = "HIGH" ∨ r.timeline_days ≤ 21

instance (r : RiskItem) : Decidable (immediateGate r) := by
  unfold immediateGate; infer_instance

instance (r : RiskItem) : Decidable (shortTermGate r) := by
  unfold shortTermGate; infer_instance

/-- Loop body of `generate_recommendations`: append the risk's recommendation
record to the single bucket selected by the if/elif/else chain. -/
def recStep (acc : Recommendations) (r : RiskItem) : Recommendations :=
  if immediateGate r then
    { acc with immediate_actions := acc.immediate_actions ++ [mkImmediateAction r] }
  else if shortTermGate r then
    { acc with short_term_actions := acc.short_term_actions ++ [mkShortTermAction r] }
  else
    { acc with long_term_actions := acc.long_term_actions ++ [mkLongTermAction r] }

/-- `ForecastService.generate_recommendations`: bucket every risk, then
truncate each bucket to its first 5 entries. -/
def generate_recommendations (risks : List RiskItem) : Recommendations :=
  let acc := risks.foldl recStep ⟨[], [], []⟩
  { immediate_actions := acc.immediate_actions.take 5
    short_term_actions := acc.short_term_actions.take 5
    long_term_actions := acc.long_term_actions.take 5 }

/-- A mitigation strategy record from the fallback table
(`MitigationService._generate_fallback_mitigations`). -/
structure MitigationStrategy where
  strategy_name : String
  action_steps : List String
  timeline_days : ℤ
  estimated_cost : ℚ
  risk_reduction : ℚ
  dependencies : List String
  pros : List String
  cons : List String
deriving DecidableEq

/-- The priority-based cost multiplier of the fallback table:
`{"CRITICAL": 2.0, "HIGH": 1.5, "MEDIUM": 1.0, "LOW": 0.5}.get(priority, 1.0)`. -/
def cost_multiplier (priority : String) : ℚ :=
  if priority = "CRITICAL" then 2
  else if priority = "HIGH" then 3/2
  else if priority = "MEDIUM" then 1
  else if priority = "LOW" then 1/2
  else 1

/-- Python's substring containment test `pat in s`. -/
def strContains (s pat : String) : Bool :=
  s.toList.tails.any fun tl => pat.toList.isPrefixOf tl

/-- `MitigationService._generate_fallback_mitigations`: deterministic rule
table keyed by substring tests on the risk's category; cost fields scaled by
the priority-based multiplier.  Reads only `category` and `priority`. -/
def generate_fallback_mitigations (risk : RiskItem) : List MitigationStrategy :=
  let category := risk.category
  let priority := risk.priority
  let cm := cost_multiplier priority
  if strContains category "Supplier" then
    [ { strategy_name := "Activate Backup Supplier"
        action_steps := ["Identify and contact qualified backup suppliers",
          "Request expedited quotes and capacity confirmation",
          "Negotiate emergency supply agreements",
          "Place initial trial orders to verify quality",
          "Establish regular communication channels"]
        timeline_days := 5
        estimated_cost := 45000 * cm
        risk_reduction := 60
        dependencies := ["Pre-qualified supplier list", "Budget approval"]
        pros := ["Immediate capacity increase", "Supply diversification"]
        cons := ["Higher unit costs", "Quality verification needed"] },
      { strategy_name := "Build Safety Stock Buffer"
        action_steps := ["Calculate optimal safety stock levels",
          "Place expedited orders with current supplier",
          "Arrange additional warehouse capacity",
          "Implement inventory monitoring system"]
        timeline_days := 14
        estimated_cost := 75000 * cm
        risk_reduction := 40
        dependencies := ["Warehouse capacity", "Working capital"]
        pros := ["Buffers against future delays", "No supplier change"]
        cons := ["Increased inventory costs", "Capital tied up"] },
      { strategy_name := "Negotiate Priority Allocation"
        action_steps := ["Schedule meeting with supplier management",
          "Present volume commitment projections",
          "Negotiate priority production slots",
          "Document agreements in contract amendment"]
        timeline_days := 7
        estimated_cost := 15000 * cm
        risk_reduction := 30
        dependencies := ["Supplier relationship", "Volume commitment"]
        pros := ["Maintains partnership", "Lower cost option"]
        cons := ["Dependent on supplier", "May not guarantee delivery"] } ]
  else if strContains category "Production" then
    [ { strategy_name := "Implement Overtime Production"
        action_steps := ["Assess equipment capacity for extended runs",
          "Schedule additional shifts",
          "Coordinate with workforce management",
          "Monitor equipment stress levels"]
        timeline_days := 3
        estimated_cost := 35000 * cm
        risk_reduction := 45
        dependencies := ["Labor availability", "Equipment condition"]
        pros := ["Quick implementation", "Uses existing assets"]
        cons := ["Higher labor costs", "Worker fatigue risk"] },
      { strategy_name := "Outsource to Contract Manufacturer"
        action_steps := ["Identify qualified contract manufacturers",
          "Share product specifications",
          "Conduct quality audits",
          "Transfer production batch"]
        timeline_days := 21
        estimated_cost := 120000 * cm
        risk_reduction := 55
        dependencies := ["CM availability", "Quality certification"]
        pros := ["Adds capacity", "Maintains delivery"]
        cons := ["Higher costs", "Quality control challenges"] } ]
  else if strContains category "Stock" || strContains category "Inventory" then
    [ { strategy_name := "Expedite Inbound Shipments"
        action_steps := ["Identify in-transit inventory",
          "Upgrade to air freight where possible",
          "Coordinate with carriers for priority handling",
          "Track shipments in real-time"]
        timeline_days := 2
        estimated_cost := 25000 * cm
        risk_reduction := 35
        dependencies := ["Carrier capacity", "Budget approval"]
        pros := ["Fast impact", "Immediate stock boost"]
        cons := ["High shipping costs", "Limited volume"] },
      { strategy_name := "Implement Demand Prioritization"
        action_steps := ["Segment customers by priority/value",
          "Allocate available inventory to key accounts",
          "Communicate proactively with affected customers",
          "Offer alternatives or future delivery dates"]
        timeline_days := 1
        estimated_cost := 5000 * cm
        risk_reduction := 25
        dependencies := ["Customer segmentation data"]
        pros := ["Protects key relationships", "Low cost"]
        cons := ["Some customers impacted", "Revenue deferral"] } ]
  else if strContains category "Transportation" then
    [ { strategy_name := "Use Alternative Carriers"
        action_steps := ["Contact backup carrier network",
          "Negotiate spot rates",
          "Reroute affected shipments",
          "Monitor delivery performance"]
        timeline_days := 2
        estimated_cost := 20000 * cm
        risk_reduction := 50
        dependencies := ["Carrier availability"]
        pros := ["Maintains delivery schedule", "Flexible"]
        cons := ["Premium rates", "Coordination overhead"] },
      { strategy_name := "Switch Transportation Mode"
        action_steps := ["Evaluate air vs. ground vs. rail options",
          "Calculate cost-benefit of mode switch",
          "Book alternative transport",
          "Update tracking systems"]
        timeline_days := 3
        estimated_cost := 40000 * cm
        risk_reduction := 45
        dependencies := ["Mode availability", "Cost approval"]
        pros := ["Can significantly speed delivery"]
        cons := ["Higher costs", "May not suit all products"] } ]
  else
    [ { strategy_name := "Activate Contingency Plan"
        action_steps := ["Review existing contingency procedures",
          "Brief relevant teams",
          "Implement pre-planned mitigation steps",
          "Monitor situation closely"]
        timeline_days := 1
        estimated_cost := 10000 * cm
        risk_reduction := 30
        dependencies := ["Documented contingency plan"]
        pros := ["Rapid response", "Pre-approved actions"]
        cons := ["May not cover all scenarios"] },
      { strategy_name := "Increase Monitoring and Communication"
        action_steps := ["Set up enhanced monitoring for affected areas",
          "Establish daily status calls with stakeholders",
          "Create situation dashboard",
          "Prepare communication templates"]
        timeline_days := 1
        estimated_cost := 5000 * cm
        risk_reduction := 20
        dependencies := ["Communication tools"]
        pros := ["Early warning of changes", "Stakeholder alignment"]
        cons := ["Reactive approach", "Time investment"] },
      { strategy_name := "Hedge Risk Exposure"
        action_steps := ["Analyze exposure to specific risk factor",
          "Explore financial hedging options",
          "Implement contractual protections",
          "Diversify where possible"]
        timeline_days := 14
        estimated_cost := 30000 * cm
        risk_reduction := 35
        dependencies := ["Financial team involvement", "Market instruments"]
        pros := ["Reduces financial impact", "Long-term protection"]
        cons := ["Complexity", "Upfront costs"] } ]

theorem le_clamp (x a b : ℚ) : a ≤ clamp x a b :=
  le_max_left _ _

theorem clamp_le {a b : ℚ} (x : ℚ) (h : a ≤ b) : clamp x a b ≤ b :=
  max_le h (min_le_right _ _)

theorem clamp_eq_self {x a b : ℚ} (h1 : a ≤ x) (h2 : x ≤ b) : clamp x a b = x := by
  unfold clamp
  rw [min_eq_left h2, max_eq_right h1]

theorem round_le_round {x y : ℚ} (h : x ≤ y) : round x ≤ round y := by
  rw [round_eq, round_eq]
  exact Int.floor_le_floor (by linarith)

theorem round2_nonneg {x : ℚ} (h : 0 ≤ x) : 0 ≤ round2 x := by
  unfold round2
  have h1 : round (0 : ℚ) ≤ round (100 * x) := round_le_round (by linarith)
  rw [round_zero] at h1
  have h2 : (0 : ℚ) ≤ ((round (100 * x) : ℤ) : ℚ) := by exact_mod_cast h1
  linarith

theorem round2_le_hundred {x : ℚ} (h : x ≤ 100) : round2 x ≤ 100 := by
  unfold round2
  have h1 : round (100 * x) ≤ round ((10000 : ℤ) : ℚ) := round_le_round (by push_cast; linarith)
  rw [round_intCast] at h1
  have h2 : ((round (100 * x) : ℤ) : ℚ) ≤ ((10000 : ℤ) : ℚ) := by exact_mod_cast h1
  push_cast at h2
  linarith

theorem round2_le_one {x : ℚ} (h : x ≤ 1) : round2 x ≤ 1 := by
  unfold round2
  have h1 : round (100 * x) ≤ round ((100 : ℤ) : ℚ) := round_le_round (by push_cast; linarith)
  rw [round_intCast] at h1
  have h2 : ((round (100 * x) : ℤ) : ℚ) ≤ ((100 : ℤ) : ℚ) := by exact_mod_cast h1
  push_cast at h2
  linarith

/-- C10: the composite-score function is total and safe on all real inputs:
the clamped mitigation readiness used as divisor lies in [0.1, 1] (in
particular it is nonzero), and the returned score lies in [0, 100] for every
rational argument combination. -/
theorem composite_score_total_safe (i p u m : ℚ) :
    ((1/10 : ℚ) ≤ clamp m (1/10) 1 ∧ clamp m (1/10) 1 ≤ 1 ∧ clamp m (1/10) 1 ≠ 0) ∧
    0 ≤ calculate_composite_score i p u m ∧
    calculate_composite_score i p u m ≤ 100 := by
  have hlo : (1/10 : ℚ) ≤ clamp m (1/10) 1 := le_clamp _ _ _
  refine ⟨⟨hlo, clamp_le _ (by norm_num), by intro h0; rw [h0] at hlo; norm_num at hlo⟩, ?_, ?_⟩
  · exact le_clamp _ _ _
  · exact clamp_le _ (by norm_num)

/-- C1: on in-range inputs, the composite-score function computes
`clamp((impact*0.4 + probability*100*0.3 + urgency*0.3) / readiness, 0, 100)`. -/
theorem composite_score_formula_in_range (i p u m : ℚ)
    (hi0 : 0 ≤ i) (hi1 : i ≤ 100) (hp0 : 0 ≤ p) (hp1 : p ≤ 1)
    (hu0 : 0 ≤ u) (hu1 : u ≤ 100) (hm0 : 1/10 ≤ m) (hm1 : m ≤ 1) :
    calculate_composite_score i p u m =
      clamp ((i * (4/10) + p * 100 * (3/10) + u * (3/10)) / m) 0 100 := by
  show clamp ((clamp i 0 100 * (4/10) + clamp p 0 1 * 100 * (3/10) +
      clamp u 0 100 * (3/10)) / clamp m (1/10) 1) 0 100 = _
  rw [clamp_eq_self hi0 hi1, clamp_eq_self hp0 hp1, clamp_eq_self hu0 hu1,
    clamp_eq_self hm0 hm1]

/-- Witness for `composite_score_formula_in_range` at a concrete in-range
input. -/
theorem composite_score_formula_in_range_witness :
    ((0:ℚ) ≤ 50 ∧ (50:ℚ) ≤ 100 ∧ (0:ℚ) ≤ 1/2 ∧ (1/2:ℚ) ≤ 1 ∧
      (0:ℚ) ≤ 30 ∧ (30:ℚ) ≤ 100 ∧ (1/10:ℚ) ≤ 1/2 ∧ (1/2:ℚ) ≤ 1) ∧
    calculate_composite_score 50 (1/2) 30 (1/2) =
      clamp ((50 * (4/10) + (1/2) * 100 * (3/10) + 30 * (3/10)) / (1/2)) 0 100 :=
  ⟨by norm_num,
    composite_score_formula_in_range 50 (1/2) 30 (1/2) (by norm_num) (by norm_num)
      (by norm_num) (by norm_num) (by norm_num) (by norm_num) (by norm_num) (by norm_num)⟩

/-- C2: for every one of the six domain score functions and every input, if
`risk_detected` is false in the returned result then `risk_score = 0` and
`priority = "LOW"` (the non-detected branch returns the fixed record
`nonRiskResult`, computing no composite score). -/
theorem non_detected_implies_zero_low :
    (∀ (f h c : ℚ) (t : ℤ) (o : ℚ),
      (calculate_supplier_risk_score f h c t o).risk_detected = false →
      (calculate_supplier_risk_score f h c t o).risk_score = 0 ∧
      (calculate_supplier_risk_score f h c t o).priority = "LOW") ∧
    (∀ (u d hd : ℚ) (t : ℤ),
      (calculate_production_risk_score u d hd t).risk_detected = false →
      (calculate_production_risk_score u d hd t).risk_score = 0 ∧
      (calculate_production_risk_score u d hd t).priority = "LOW") ∧
    (∀ (fi ss du il : ℚ) (t : ℤ),
      (calculate_inventory_risk_score fi ss du il t).risk_detected = false →
      (calculate_inventory_risk_score fi ss du il t).risk_score = 0 ∧
      (calculate_inventory_risk_score fi ss du il t).priority = "LOW") ∧
    (∀ (y yu yl : ℚ) (t : ℤ),
      (calculate_demand_volatility_score y yu yl t).risk_detected = false →
      (calculate_demand_volatility_score y yu yl t).risk_score = 0 ∧
      (calculate_demand_volatility_score y yu yl t).priority = "LOW") ∧
    (∀ (f b : ℚ) (t : ℤ) (o : ℚ),
      (calculate_transportation_risk_score f b t o).risk_detected = false →
      (calculate_transportation_risk_score f b t o).risk_score = 0 ∧
      (calculate_transportation_risk_score f b t o).priority = "LOW") ∧
    (∀ (ft : String) (fv hv : ℚ) (t : ℤ),
      (calculate_external_factor_risk_score ft fv hv t).risk_detected = false →
      (calculate_external_factor_risk_score ft fv hv t).risk_score = 0 ∧
      (calculate_external_factor_risk_score ft fv hv t).priority = "LOW") := by
  refine ⟨?_, ?_, ?_, ?_, ?_, ?_⟩
  · intro f h c t o hd
    simp only [calculate_supplier_risk_score] at hd ⊢
    by_cases hc : RISK_THRESHOLDS "supplier_lead_time_multiplier" < safe_division f h 1
    · rw [if_pos hc] at hd; simp at hd
    · rw [if_neg hc]; exact ⟨rfl, rfl⟩
  · intro u d hd t h
    simp only [calculate_production_risk_score] at h ⊢
    by_cases hc : RISK_THRESHOLDS "capacity_utilization_threshold" < u ∨
      RISK_THRESHOLDS "downtime_increase_threshold" < safe_division (d - hd) hd 0
    · rw [if_pos hc] at h; simp at h
    · rw [if_neg hc]; exact ⟨rfl, rfl⟩
  · intro fi ss du il t h
    simp only [calculate_inventory_risk_score] at h ⊢
    by_cases hc : fi < ss ∨ il < du
    · rw [if_pos hc] at h; simp at h
    · rw [if_neg hc]; exact ⟨rfl, rfl⟩
  · intro y yu yl t h
    simp only [calculate_demand_volatility_score] at h ⊢
    by_cases hc : RISK_THRESHOLDS "demand_volatility_threshold" < safe_division (yu - yl) y 0
    · rw [if_pos hc] at h; simp at h
    · rw [if_neg hc]; exact ⟨rfl, rfl⟩
  · intro f b t o h
    simp only [calculate_transportation_risk_score] at h ⊢
    by_cases hc : RISK_THRESHOLDS "transit_time_multiplier" < safe_division f b 1
    · rw [if_pos hc] at h; simp at h
    · rw [if_neg hc]; exact ⟨rfl, rfl⟩
  · intro ft fv hv t h
    simp only [calculate_external_factor_risk_score] at h ⊢
    by_cases h1 : ft = "weather_severity_index"
    · rw [if_pos h1] at h ⊢
      by_cases hc : RISK_THRESHOLDS "weather_severity_threshold" < fv
      · rw [if_pos hc] at h; simp [externalDetected] at h
      · rw [if_neg hc]; exact ⟨rfl, rfl⟩
    · rw [if_neg h1] at h ⊢
      by_cases h2 : ft = "tariff_rate"
      · rw [if_pos h2] at h ⊢
        by_cases hc : RISK_THRESHOLDS "tariff_increase_threshold" < safe_division (fv - hv) hv 0
        · rw [if_pos hc] at h; simp [externalDetected] at h
        · rw [if_neg hc]; exact ⟨rfl, rfl⟩
      · rw [if_neg h2] at h ⊢
        by_cases h3 : ft = "port_congestion_index"
        · rw [if_pos h3] at h ⊢
          by_cases hc : RISK_THRESHOLDS "port_congestion_threshold" < fv
          · rw [if_pos hc] at h; simp [externalDetected] at h
          · rw [if_neg hc]; exact ⟨rfl, rfl⟩
        · rw [if_neg h3] at h ⊢
          by_cases h4 : ft = "fuel_price_usd"
          · rw [if_pos h4] at h ⊢
            by_cases hc : (3/20 : ℚ) < safe_division (fv - hv) hv 0
            · rw [if_pos hc] at h; simp [externalDetected] at h
            · rw [if_neg hc]; exact ⟨rfl, rfl⟩
          · rw [if_neg h4] at h ⊢
            by_cases h5 : ft = "geopolitical_risk_index"
            · rw [if_pos h5] at h ⊢
              by_cases hc : (7 : ℚ) < fv
              · rw [if_pos hc] at h; simp [externalDetected] at h
              · rw [if_neg hc]; exact ⟨rfl, rfl⟩
            · rw [if_neg h5]; exact ⟨rfl, rfl⟩

/-- Witness for `non_detected_implies_zero_low`: a supplier input whose lead
time ratio 1.0 stays below the 1.2 gate. -/
theorem non_detected_implies_zero_low_witness :
    (calculate_supplier_risk_score 10 10 1 5 (9/10)).risk_detected = false ∧
    ((calculate_supplier_risk_score 10 10 1 5 (9/10)).risk_score = 0 ∧
      (calculate_supplier_risk_score 10 10 1 5 (9/10)).priority = "LOW") :=
  ⟨by norm_num [calculate_supplier_risk_score, safe_division, RISK_THRESHOLDS, nonRiskResult],
    non_detected_implies_zero_low.1 10 10 1 5 (9/10)
      (by norm_num [calculate_supplier_risk_score, safe_division, RISK_THRESHOLDS, nonRiskResult])⟩

theorem classify_risk_priority_eq (s : ℚ) :
    classify_risk_priority s =
      if 90 ≤ s then "CRITICAL" else if 70 ≤ s then "HIGH"
      else if 50 ≤ s then "MEDIUM" else "LOW" := by
  simp [classify_risk_priority, RISK_PRIORITY_THRESHOLDS]

theorem priorityRank_classify (s : ℚ) :
    priorityRank (classify_risk_priority s) =
      if 90 ≤ s then 3 else if 70 ≤ s then 2 else if 50 ≤ s then 1 else 0 := by
  rw [classify_risk_priority_eq]
  split_ifs <;> simp [priorityRank]

/-- C4: priority classification maps `score ≥ 90` to CRITICAL, `≥ 70` to HIGH,
`≥ 50` to MEDIUM and everything below to LOW (boundaries inclusive-low), with
the four bands partitioning the line with no gaps or overlaps, and is
monotonic in the score. -/
theorem priority_classification_partition_monotone (s t : ℚ) :
    (classify_risk_priority s = "CRITICAL" ↔ 90 ≤ s) ∧
    (classify_risk_priority s = "HIGH" ↔ 70 ≤ s ∧ s < 90) ∧
    (classify_risk_priority s = "MEDIUM" ↔ 50 ≤ s ∧ s < 70) ∧
    (classify_risk_priority s = "LOW" ↔ s < 50) ∧
    (s ≤ t → priorityRank (classify_risk_priority s) ≤ priorityRank (classify_risk_priority t)) := by
  refine ⟨?_, ?_, ?_, ?_, ?_⟩
  · rw [classify_risk_priority_eq]
    split_ifs with h1 h2 h3 <;> simpa using h1
  · rw [classify_risk_priority_eq]
    split_ifs with h1 h2 h3 <;> simp <;>
      first
        | (constructor <;> linarith)
        | linarith
        | (intro _; linarith)
  · rw [classify_risk_priority_eq]
    split_ifs with h1 h2 h3 <;> simp <;>
      first
        | (constructor <;> linarith)
        | linarith
        | (intro _; linarith)
  · rw [classify_risk_priority_eq]
    split_ifs with h1 h2 h3 <;> simp <;> linarith
  · intro hst
    rw [priorityRank_classify, priorityRank_classify]
    split_ifs <;> first | (exfalso; linarith) | norm_num

/-- Witness for `priority_classification_partition_monotone`: monotonicity at
the concrete pair of scores 60 ≤ 95. -/
theorem priority_classification_monotone_witness :
    priorityRank (classify_risk_priority 60) ≤ priorityRank (classify_risk_priority 95) :=
  (priority_classification_partition_monotone 60 95).2.2.2.2 (by norm_num)

/-- The range contract on a scorer result: risk_score in [0,100], probability
in [0,1], impact_severity in [0,100]. -/
def resultBounded (res : ScoreResult) : Prop :=
  0 ≤ res.risk_score ∧ res.risk_score ≤ 100 ∧
  0 ≤ res.probability ∧ res.probability ≤ 1 ∧
  0 ≤ res.impact_severity ∧ res.impact_severity ≤ 100

theorem nonRiskResult_bounded : resultBounded nonRiskResult := by
  norm_num [resultBounded, nonRiskResult]

theorem composite_nonneg (i p u m : ℚ) : 0 ≤ calculate_composite_score i p u m :=
  le_clamp _ _ _

theorem composite_le_hundred (i p u m : ℚ) : calculate_composite_score i p u m ≤ 100 :=
  clamp_le _ (by norm_num)

theorem detected_record_bounded {p i u m : ℚ} (hp0 : 0 ≤ p) (hp1 : p ≤ 1)
    (hi0 : 0 ≤ i) (hi1 : i ≤ 100) :
    resultBounded
      { risk_detected := true
        risk_score := round2 (calculate_composite_score i p u m)
        priority := classify_risk_priority (calculate_composite_score i p u m)
        probability := round2 p
        impact_severity := round2 i } :=
  ⟨round2_nonneg (composite_nonneg i p u m), round2_le_hundred (composite_le_hundred i p u m),
    round2_nonneg hp0, round2_le_one hp1, round2_nonneg hi0, round2_le_hundred hi1⟩

theorem supplier_result_bounded (f h c : ℚ) (t : ℤ) (o : ℚ) :
    resultBounded (calculate_supplier_risk_score f h c t o) := by
  simp only [calculate_supplier_risk_score]
  by_cases hc : RISK_THRESHOLDS "supplier_lead_time_multiplier" < safe_division f h 1
  · rw [if_pos hc]
    apply detected_record_bounded
    · exact le_clamp _ _ _
    · exact clamp_le _ (by norm_num)
    · have h65 : RISK_THRESHOLDS "supplier_lead_time_multiplier" = 6/5 := by
        simp [RISK_THRESHOLDS]
      rw [h65] at hc
      exact le_min (by linarith) (by norm_num)
    · exact min_le_right _ _
  · rw [if_neg hc]; exact nonRiskResult_bounded

theorem production_result_bounded (u d hd : ℚ) (t : ℤ) :
    resultBounded (calculate_production_risk_score u d hd t) := by
  simp only [calculate_production_risk_score]
  by_cases hc : RISK_THRESHOLDS "capacity_utilization_threshold" < u ∨
      RISK_THRESHOLDS "downtime_increase_threshold" < safe_division (d - hd) hd 0
  · rw [if_pos hc]
    exact detected_record_bounded (le_clamp _ _ _) (clamp_le _ (by norm_num))
      (le_clamp _ _ _) (clamp_le _ (by norm_num))
  · rw [if_neg hc]; exact nonRiskResult_bounded

theorem inventory_result_bounded (fi ss du il : ℚ) (t : ℤ) :
    resultBounded (calculate_inventory_risk_score fi ss du il t) := by
  simp only [calculate_inventory_risk_score]
  by_cases hc : fi < ss ∨ il < du
  · rw [if_pos hc]
    exact detected_record_bounded (le_clamp _ _ _) (clamp_le _ (by norm_num))
      (le_clamp _ _ _) (clamp_le _ (by norm_num))
  · rw [if_neg hc]; exact nonRiskResult_bounded

theorem demand_result_bounded (y yu yl : ℚ) (t : ℤ) :
    resultBounded (calculate_demand_volatility_score y yu yl t) := by
  simp only [calculate_demand_volatility_score]
  by_cases hc : RISK_THRESHOLDS "demand_volatility_threshold" < safe_division (yu - yl) y 0
  · rw [if_pos hc]
    have h3 : RISK_THRESHOLDS "demand_volatility_threshold" = 3/10 := by
      simp [RISK_THRESHOLDS]
    apply detected_record_bounded
    · refine le_min ?_ (by norm_num)
      have hdiv : (safe_division (yu - yl) y 0 - RISK_THRESHOLDS "demand_volatility_threshold") /
          RISK_THRESHOLDS "demand_volatility_threshold" =
          (safe_division (yu - yl) y 0 - 3/10) * (10/3) := by
        rw [h3]; ring
      rw [hdiv]
      rw [h3] at hc
      linarith
    · exact min_le_right _ _
    · refine le_min ?_ (by norm_num)
      rw [h3] at hc
      linarith
    · exact min_le_right _ _
  · rw [if_neg hc]; exact nonRiskResult_bounded

theorem transportation_result_bounded (f b : ℚ) (t : ℤ) (o : ℚ) :
    resultBounded (calculate_transportation_risk_score f b t o) := by
  simp only [calculate_transportation_risk_score]
  by_cases hc : RISK_THRESHOLDS "transit_time_multiplier" < safe_division f b 1
  · rw [if_pos hc]
    apply detected_record_bounded
    · exact le_clamp _ _ _
    · exact clamp_le _ (by norm_num)
    · have h13 : RISK_THRESHOLDS "transit_time_multiplier" = 13/10 := by
        simp [RISK_THRESHOLDS]
      rw [h13] at hc
      exact le_min (by linarith) (by norm_num)
    · exact min_le_right _ _
  · rw [if_neg hc]; exact nonRiskResult_bounded

theorem externalDetected_bounded (p i : ℚ) (t : ℤ) :
    resultBounded (externalDetected p i t) := by
  simp only [externalDetected]
  exact detected_record_bounded (le_clamp _ _ _) (clamp_le _ (by norm_num))
    (le_clamp _ _ _) (clamp_le _ (by norm_num))

theorem external_result_bounded (ft : String) (fv hv : ℚ) (t : ℤ) :
    resultBounded (calculate_external_factor_risk_score ft fv hv t) := by
  simp only [calculate_external_factor_risk_score]
  repeat
    first
      | split
      | exact externalDetected_bounded _ _ _
      | exact nonRiskResult_bounded

/-- C3: for every one of the six domain score functions and every input, the
returned record satisfies `risk_score ∈ [0,100]`, `probability ∈ [0,1]` and
`impact_severity ∈ [0,100]`, in both the detected and the non-detected case. -/
theorem score_results_bounded :
    (∀ (f h c : ℚ) (t : ℤ) (o : ℚ), resultBounded (calculate_supplier_risk_score f h c t o)) ∧
    (∀ (u d hd : ℚ) (t : ℤ), resultBounded (calculate_production_risk_score u d hd t)) ∧
    (∀ (fi ss du il : ℚ) (t : ℤ), resultBounded (calculate_inventory_risk_score fi ss du il t)) ∧
    (∀ (y yu yl : ℚ) (t : ℤ), resultBounded (calculate_demand_volatility_score y yu yl t)) ∧
    (∀ (f b : ℚ) (t : ℤ) (o : ℚ), resultBounded (calculate_transportation_risk_score f b t o)) ∧
    (∀ (ft : String) (fv hv : ℚ) (t : ℤ), resultBounded (calculate_external_factor_risk_score ft fv hv t)) :=
  ⟨supplier_result_bounded, production_result_bounded, inventory_result_bounded,
    demand_result_bounded, transportation_result_bounded, external_result_bounded⟩

theorem scoreDescLE_trans : ∀ a b c : RiskItem,
    scoreDescLE a b → scoreDescLE b c → scoreDescLE a c := by
  intro a b c h1 h2
  simp only [scoreDescLE, decide_eq_true_eq] at *
  exact le_trans h2 h1

theorem scoreDescLE_total : ∀ a b : RiskItem, scoreDescLE a b || scoreDescLE b a := by
  intro a b
  simp only [scoreDescLE, Bool.or_eq_true, decide_eq_true_eq]
  exact le_total b.risk_score a.risk_score

/-- C5: `aggregate_risks` returns exactly the input risks whose score meets
the threshold (as a permutation of the threshold filter), sorted
non-increasingly by risk score, and stably: within each score class the
output order equals the filtered input order. -/
theorem aggregate_risks_filter_sort_stable (risks : List RiskItem) (threshold : ℚ) :
    (aggregate_risks risks threshold).Perm
      (risks.filter fun r => decide (threshold ≤ r.risk_score)) ∧
    (aggregate_risks risks threshold).Pairwise (fun a b => b.risk_score ≤ a.risk_score) ∧
    ∀ s : ℚ, (aggregate_risks risks threshold).filter (fun r => decide (r.risk_score = s)) =
      (risks.filter fun r => decide (threshold ≤ r.risk_score)).filter
        (fun r => decide (r.risk_score = s)) := by
  simp only [aggregate_risks]
  set F := risks.filter fun r => decide (threshold ≤ r.risk_score) with hF
  refine ⟨List.mergeSort_perm F scoreDescLE, ?_, ?_⟩
  · exact (List.sorted_mergeSort scoreDescLE_trans scoreDescLE_total F).imp
      (fun h => by simpa [scoreDescLE, decide_eq_true_eq] using h)
  · intro s
    set Q := fun r : RiskItem => decide (r.risk_score = s) with hQ
    have hQmem : ∀ a ∈ F.filter Q, a.risk_score = s := by
      intro a ha
      have := (List.mem_filter.mp ha).2
      simpa [hQ] using this
    have hQpair : (F.filter Q).Pairwise fun a b => scoreDescLE a b = true := by
      apply List.pairwise_of_forall_mem_list
      intro a ha b hb
      simp [scoreDescLE, hQmem a ha, hQmem b hb]
    have hsub : (F.filter Q).Sublist (F.mergeSort scoreDescLE) :=
      List.sublist_mergeSort scoreDescLE_trans scoreDescLE_total hQpair (List.filter_sublist F)
    have hself : (F.filter Q).filter Q = F.filter Q :=
      List.filter_eq_self.mpr fun a ha => (List.mem_filter.mp ha).2
    have hsub2 : (F.filter Q).Sublist ((F.mergeSort scoreDescLE).filter Q) := by
      have := hsub.filter Q
      rwa [hself] at this
    have hperm : ((F.mergeSort scoreDescLE).filter Q).Perm (F.filter Q) :=
      (List.mergeSort_perm F scoreDescLE).filter Q
    exact (hsub2.eq_of_length hperm.length_eq.symm).symm

/-- C6: for thresholds T1 > T2, every risk in the T1-aggregation is also in
the T2-aggregation. -/
theorem aggregate_risks_threshold_subset (risks : List RiskItem) (t1 t2 : ℚ)
    (h : t2 < t1) (r : RiskItem) (hr : r ∈ aggregate_risks risks t1) :
    r ∈ aggregate_risks risks t2 := by
  simp only [aggregate_risks, List.mem_mergeSort, List.mem_filter,
    decide_eq_true_eq] at hr ⊢
  exact ⟨hr.1, le_trans (le_of_lt h) hr.2⟩

/-- A sample risk record used to witness the aggregation theorems. -/
def riskSampleA : RiskItem :=
  { risk_id := "R-0001"
    category := "Supplier Delays"
    impact := "Lead time increase"
    priority := "HIGH"
    risk_score := 80
    timeline_days := 10 }

/-- Witness for `aggregate_risks_threshold_subset`: a risk scoring 80 kept at
threshold 70 is also kept at threshold 50. -/
theorem aggregate_risks_threshold_subset_witness :
    riskSampleA ∈ aggregate_risks [riskSampleA] 50 := by
  apply aggregate_risks_threshold_subset [riskSampleA] 70 50 (by norm_num) riskSampleA
  simp only [aggregate_risks, List.mem_mergeSort, List.mem_filter, List.mem_singleton]
  exact ⟨trivial, by norm_num [riskSampleA]⟩

/-- C7 counterexample: invoking the external-factor scorer with the unknown
factor type "labor_strike_index" raises nothing: it returns the ordinary
non-detected record, contradicting the claim that an unknown factor type
produces an immediate error. -/
theorem unknown_factor_returns_result :
    calculate_external_factor_risk_score "labor_strike_index" 100 1 5 = nonRiskResult := by
  simp [calculate_external_factor_risk_score]

/-- C7 amended: for any factor type other than the five recognized ones, the
external-factor scorer returns the non-detected record (risk_detected false,
score 0, priority LOW) instead of raising an error. -/
theorem unknown_factor_nonrisk (ft : String)
    (h1 : ft ≠ "weather_severity_index") (h2 : ft ≠ "tariff_rate")
    (h3 : ft ≠ "port_congestion_index") (h4 : ft ≠ "fuel_price_usd")
    (h5 : ft ≠ "geopolitical_risk_index") (fv hv : ℚ) (t : ℤ) :
    calculate_external_factor_risk_score ft fv hv t = nonRiskResult := by
  simp only [calculate_external_factor_risk_score]
  rw [if_neg h1, if_neg h2, if_neg h3, if_neg h4, if_neg h5]

/-- Witness for `unknown_factor_nonrisk` at a concrete unknown factor type. -/
theorem unknown_factor_nonrisk_witness :
    calculate_external_factor_risk_score "labor_strike_index" 7 7 30 = nonRiskResult :=
  unknown_factor_nonrisk "labor_strike_index" (by decide) (by decide) (by decide)
    (by decide) (by decide) 7 7 30

theorem foldl_recStep_immediate (risks : List RiskItem) (acc : Recommendations) :
    (risks.foldl recStep acc).immediate_actions =
      acc.immediate_actions ++
        ((risks.filter fun r => decide (immediateGate r)).map mkImmediateAction) := by
  induction risks generalizing acc with
  | nil => simp
  | cons r rest ih =>
    simp only [List.foldl_cons, List.filter_cons]
    rw [ih]
    by_cases hI : immediateGate r
    · simp [recStep, hI]
    · by_cases hS : shortTermGate r <;> simp [recStep, hI, hS]

theorem foldl_recStep_short_term (risks : List RiskItem) (acc : Recommendations) :
    (risks.foldl recStep acc).short_term_actions =
      acc.short_term_actions ++
        ((risks.filter fun r => decide (¬ immediateGate r ∧ shortTermGate r)).map
          mkShortTermAction) := by
  induction risks generalizing acc with
  | nil => simp
  | cons r rest ih =>
    simp only [List.foldl_cons, List.filter_cons]
    rw [ih]
    by_cases hI : immediateGate r
    · simp [recStep, hI]
    · by_cases hS : shortTermGate r <;> simp [recStep, hI, hS]

theorem foldl_recStep_long_term (risks : List RiskItem) (acc : Recommendations) :
    (risks.foldl recStep acc).long_term_actions =
      acc.long_term_actions ++
        ((risks.filter fun r => decide (¬ immediateGate r ∧ ¬ shortTermGate r)).map
          mkLongTermAction) := by
  induction risks generalizing acc with
  | nil => simp
  | cons r rest ih =>
    simp only [List.foldl_cons, List.filter_cons]
    rw [ih]
    by_cases hI : immediateGate r
    · simp [recStep, hI]
    · by_cases hS : shortTermGate r <;> simp [recStep, hI, hS]

/-- C8: `generate_recommendations` puts every input risk into exactly one
bucket — immediate when priority is CRITICAL or timeline ≤ 7 (either gate
suffices), else short-term when priority is HIGH or timeline ≤ 21, else
long-term — one record per risk in input order, then truncates each bucket to
its first 5 entries, so no bucket ever exceeds 5 entries. -/
theorem recommendations_bucketing_truncation (risks : List RiskItem) :
    (generate_recommendations risks).immediate_actions =
      ((risks.filter fun r => decide (immediateGate r)).map mkImmediateAction).take 5 ∧
    (generate_recommendations risks).short_term_actions =
      ((risks.filter fun r => decide (¬ immediateGate r ∧ shortTermGate r)).map
        mkShortTermAction).take 5 ∧
    (generate_recommendations risks).long_term_actions =
      ((risks.filter fun r => decide (¬ immediateGate r ∧ ¬ shortTermGate r)).map
        mkLongTermAction).take 5 ∧
    (generate_recommendations risks).immediate_actions.length ≤ 5 ∧
    (generate_recommendations risks).short_term_actions.length ≤ 5 ∧
    (generate_recommendations risks).long_term_actions.length ≤ 5 := by
  have h1 := foldl_recStep_immediate risks ⟨[], [], []⟩
  have h2 := foldl_recStep_short_term risks ⟨[], [], []⟩
  have h3 := foldl_recStep_long_term risks ⟨[], [], []⟩
  simp only [generate_recommendations, h1, h2, h3, List.nil_append]
  refine ⟨trivial, trivial, trivial, ?_, ?_, ?_⟩ <;>
    simp [List.length_take]

/-- C9: the fallback mitigation generator is deterministic — it reads only the
risk's category and priority, so any two risk records agreeing on those two
fields get identical strategy lists — and its cost multiplier maps
CRITICAL to 2.0, HIGH to 1.5, MEDIUM to 1.0 and LOW to 0.5. -/
theorem fallback_mitigations_deterministic (r1 r2 : RiskItem)
    (hcat : r1.category = r2.category) (hpri : r1.priority = r2.priority) :
    generate_fallback_mitigations r1 = generate_fallback_mitigations r2 ∧
    cost_multiplier "CRITICAL" = 2 ∧ cost_multiplier "HIGH" = 3/2 ∧
    cost_multiplier "MEDIUM" = 1 ∧ cost_multiplier "LOW" = 1/2 := by
  refine ⟨?_, by simp [cost_multiplier], by simp [cost_multiplier],
    by simp [cost_multiplier], by simp [cost_multiplier]⟩
  simp only [generate_fallback_mitigations, hcat, hpri]

/-- A second sample risk record: same category and priority as
`riskSampleA`, different id, impact, score and timeline. -/
def riskSampleB : RiskItem :=
  { risk_id := "R-0002"
    category := "Supplier Delays"
    impact := "Extended delay on key component"
    priority := "HIGH"
    risk_score := 95
    timeline_days := 3 }

/-- Witness for `fallback_mitigations_deterministic`: two concrete records
sharing category and priority but nothing else get identical strategy
lists. -/
theorem fallback_mitigations_deterministic_witness :
    generate_fallback_mitigations riskSampleA = generate_fallback_mitigations riskSampleB ∧
    cost_multiplier "CRITICAL" = 2 ∧ cost_multiplier "HIGH" = 3/2 ∧
    cost_multiplier "MEDIUM" = 1 ∧ cost_multiplier "LOW" = 1/2 :=
  fallback_mitigations_deterministic riskSampleA riskSampleB rfl rfl

end SupplyChain
